import Mathlib

/-!
Verification of the quote-to-order workflow of the Motion print-shop
application (`src/app.py`).

The embedding is a shallow one, translated route by route from the source:

* Monetary `Float` columns (`quoted_price`, `discount_applied`, `delivery_fee`,
  `total_price`, `subtotal`, `discount`, `total`, `total_spent`, `base_price`)
  are modelled as exact integers (`Int`): the workflow only copies these
  values and combines them with `+`/`-`, so no property here depends on the
  floating-point representation.
* `DateTime` values are modelled as integer instants (seconds); the
  `timedelta(days=d)` used when pricing a quote becomes `d * 86400`.
* Nullable columns become `Option`; column defaults from the model classes
  (`discount_applied = 0.0`, Pending and New statuses, `subtotal = 0.0`, ...) are applied where the source constructs a row
  without supplying the field.
* `items_json` holds a serialized array; serialization (`json.dumps`) is
  injective on the records produced by `request_quote`, so the column is
  modelled directly as the list of snapshot records.
* Each Flask request handler runs against the store and commits once, so a
  handler is modelled as a function from an application state to a result
  together with the successor state; the state after a handler that bails
  out before writing (403, flash-and-redirect, rollback on error) is the
  unchanged input state.
* Auto-increment primary keys are modelled by `nextOrderId`/`nextQuoteId`
  counters: a freshly inserted row receives the next id.
-/

namespace Motion

/-- Monetary amounts (`db.Float` columns), modelled exactly. -/
abbrev Money := Int

/-- Instants in time (`db.DateTime` values), as integer seconds. -/
abbrev Time := Int

/-- Seconds in one day, the unit of `timedelta(days=...)`. -/
def secondsPerDay : Int := 86400

-- Status strings used by `QuoteRequest.status` (src/app.py line 199).
def statusPending : String := "Pending"

def statusQuoted : String := "Quoted"

def statusConverted : String := "Converted"

def statusRejected : String := "Rejected"

def statusExpired : String := "Expired"

-- Status strings used by `Order.status` (src/app.py lines 250, 1018).
def statusNew : String := "New"

def statusConfirmed : String := "Confirmed"

-- Customer tier names (src/app.py lines 82-99).
def tierNew : String := "New"

def tierBronze : String := "Bronze"

def tierSilver : String := "Silver"

def tierGold : String := "Gold"

def tierVIP : String := "VIP"

def emptyStr : String := ""

def commaSep : String := ","

def serviceShopOrder : String := "Shop Order"

def orderDetailsTag : String := "Order from Quote #"

/-- Model of `User.update_tier` (src/app.py lines 82-93): the tier recomputed from the
lifetime order count, thresholds 50/30/15/5 tested with `>=` in that order. -/
def update_tier (total_orders : Int) : String :=
  if total_orders ≥ 50 then tierVIP
  else if total_orders ≥ 30 then tierGold
  else if total_orders ≥ 15 then tierSilver
  else if total_orders ≥ 5 then tierBronze
  else tierNew

/-- Model of `User.discount_percent` (src/app.py lines 95-99): dictionary lookup with
default 0 for an unknown tier string. -/
def discount_percent (customer_tier : String) : Nat :=
  if customer_tier = tierNew then 0
  else if customer_tier = tierBronze then 5
  else if customer_tier = tierSilver then 10
  else if customer_tier = tierGold then 15
  else if customer_tier = tierVIP then 20
  else 0

/-- The fields of `Product` consulted by the cart/quote workflow. -/
structure Product where
  id : Nat
  name : String
  base_price : Money
  min_quantity : Nat
deriving DecidableEq

/-- A `CartItem` row of the acting customer (src/app.py lines 160-186). -/
structure CartItem where
  product : Product
  quantity : Nat
  size : String
  material : String
  color : String
  finishing : String
  custom_size : String
  design_file : Option String
  design_notes : String
deriving DecidableEq

/-- One entry of the serialized `items_json` array, with exactly the keys
written by `request_quote` (src/app.py lines 721-734). -/
structure SnapshotItem where
  product_id : Nat
  product_name : String
  quantity : Nat
  size : String
  material : String
  color : String
  finishing : String
  custom_size : String
  design_file : Option String
  design_notes : String
  base_price : Money
deriving DecidableEq

/-- The serialization of one cart line performed by `request_quote`
(src/app.py lines 721-734). -/
def serializeItem (item : CartItem) : SnapshotItem :=
  { product_id := item.product.id
    product_name := item.product.name
    quantity := item.quantity
    size := item.size
    material := item.material
    color := item.color
    finishing := item.finishing
    custom_size := item.custom_size
    design_file := item.design_file
    design_notes := item.design_notes
    base_price := item.product.base_price }

/-- The customer-facing fields of `User` touched by the workflow
(src/app.py lines 52-99). -/
structure User where
  id : Nat
  customer_tier : String
  total_orders : Int
  total_spent : Money
deriving DecidableEq

/-- A `QuoteRequest` row (src/app.py lines 189-222). -/
structure QuoteRequest where
  id : Nat
  user_id : Nat
  items_json : List SnapshotItem
  status : String
  quoted_price : Option Money
  discount_applied : Option Money
  delivery_fee : Option Money
  total_price : Option Money
  admin_notes : Option String
  valid_until : Option Time
  customer_notes : Option String
  quoted_at : Option Time
  responded_at : Option Time
  order_id : Option Nat
deriving DecidableEq

/-- An `Order` row (src/app.py lines 225-267). -/
structure Order where
  id : Nat
  user_id : Option Nat
  quote_request_id : Option Nat
  guest_name : Option String
  guest_email : Option String
  guest_phone : Option String
  service_type : String
  details : String
  items_json : Option (List SnapshotItem)
  subtotal : Option Money
  discount : Option Money
  delivery_fee : Option Money
  total : Option Money
  status : String
  design_files : Option String
deriving DecidableEq

/-- The store as seen by one request of one authenticated customer:
the acting user's row, that user's cart (in insertion order, as returned
by the unordered rowid scan), and the quote and order tables. -/
structure AppState where
  user : User
  cart : List CartItem
  quotes : List QuoteRequest
  orders : List Order
  nextOrderId : Nat
  nextQuoteId : Nat
deriving DecidableEq

/-- Lookup of a quote row by id, as `QuoteRequest.query.get_or_404(quote_id)`. -/
def findQuote (s : AppState) (qid : Nat) : Option QuoteRequest :=
  s.quotes.find? (fun q => q.id == qid)

/-- Apply an in-place mutation to the quote row with the given id. -/
def updateQuote (s : AppState) (qid : Nat) (f : QuoteRequest → QuoteRequest) :
    AppState :=
  { s with quotes := s.quotes.map (fun q => if q.id == qid then f q else q) }

/-- Result of the `request_quote` handler (src/app.py lines 708-752). -/
inductive RequestQuoteResult where
  | emptyCart : RequestQuoteResult
  | submitted (quoteId : Nat) : RequestQuoteResult
deriving DecidableEq

/-- The `QuoteRequest` row constructed by `request_quote`
(src/app.py lines 738-742), with the column defaults of the model class. -/
def newQuoteFromCart (s : AppState) (notes : String) : QuoteRequest :=
  { id := s.nextQuoteId
    user_id := s.user.id
    items_json := s.cart.map serializeItem
    status := statusPending
    quoted_price := none
    discount_applied := some 0
    delivery_fee := some 0
    total_price := none
    admin_notes := none
    valid_until := none
    customer_notes := some notes
    quoted_at := none
    responded_at := none
    order_id := none }

/-- Model of `request_quote` (src/app.py lines 708-752): bail out on an empty cart,
otherwise insert the snapshot quote and delete every cart row of the
customer, in one commit. -/
def request_quote (s : AppState) (notes : String) :
    RequestQuoteResult × AppState :=
  if s.cart.isEmpty then
    (RequestQuoteResult.emptyCart, s)
  else
    (RequestQuoteResult.submitted s.nextQuoteId,
      { s with
        quotes := s.quotes ++ [newQuoteFromCart s notes]
        cart := []
        nextQuoteId := s.nextQuoteId + 1 })

/-- The field updates performed by the admin pricing action
(src/app.py lines 1069-1076). -/
def priceQuote (quoted_price discount_applied delivery_fee : Money)
    (admin_notes : String) (valid_days : Int) (now : Time)
    (q : QuoteRequest) : QuoteRequest :=
  { q with
    quoted_price := some quoted_price
    discount_applied := some discount_applied
    delivery_fee := some delivery_fee
    total_price := some (quoted_price - discount_applied + delivery_fee)
    admin_notes := some admin_notes
    valid_until := some (now + valid_days * secondsPerDay)
    quoted_at := some now
    status := statusQuoted }

/-- The send-quote action branch of `admin_quote_detail`
(src/app.py lines 1050-1081).  The handler looks the quote up
(`get_or_404`) and then applies the pricing updates unconditionally:
the source contains no check of `quote.status`. -/
def send_quote (s : AppState) (qid : Nat)
    (quoted_price discount_applied delivery_fee : Money)
    (admin_notes : String) (valid_days : Int) (now : Time) : AppState :=
  match findQuote s qid with
  | none => s
  | some _ =>
    updateQuote s qid
      (priceQuote quoted_price discount_applied delivery_fee admin_notes
        valid_days now)

/-- Result of the `accept_quote` handler (src/app.py lines 775-832). -/
inductive AcceptResult where
  | notFound : AcceptResult
  | forbidden : AcceptResult
  | notAcceptable : AcceptResult
  | expired : AcceptResult
  | serverError : AcceptResult
  | converted (orderId : Nat) : AcceptResult
deriving DecidableEq

/-- The expiry test of `accept_quote` (src/app.py line 789):
`quote.valid_until and quote.valid_until < now` — a quote with no
`valid_until` never expires, otherwise strict comparison. -/
def isExpired (valid_until : Option Time) (now : Time) : Bool :=
  match valid_until with
  | none => false
  | some t => decide (t < now)

/-- Comma-join over the truthy `design_file` entries of the
snapshot (src/app.py lines 813-815); `None` when the list is empty. -/
def joinDesignFiles (items : List SnapshotItem) : Option String :=
  let fs := items.filterMap (fun i => i.design_file)
  if fs.isEmpty then none else some (String.intercalate commaSep fs)

/-- The `Order` row constructed from an accepted quote
(src/app.py lines 799-815): snapshot and the four financial columns are
copied verbatim from the quote, status is `Confirmed`. -/
def orderFromQuote (s : AppState) (quote : QuoteRequest) : Order :=
  { id := s.nextOrderId
    user_id := some s.user.id
    quote_request_id := some quote.id
    guest_name := none
    guest_email := none
    guest_phone := none
    service_type := serviceShopOrder
    details := String.append orderDetailsTag (toString quote.id)
    items_json := some quote.items_json
    subtotal := quote.quoted_price
    discount := quote.discount_applied
    delivery_fee := quote.delivery_fee
    total := quote.total_price
    status := statusConfirmed
    design_files := joinDesignFiles quote.items_json }

/-- Model of `accept_quote` (src/app.py lines 775-832).  Checks, in source order:
existence (404), ownership (403), the Quoted-status requirement, then lazy
expiry (which commits the Expired status and bails out), then materializes the
order, marks the quote `Converted`, and updates the customer's lifetime
statistics and tier — all before the single commit.  The assignment
`quote.order_id = order.id` at line 821 runs right after `db.session.add`
with no flush in between: the pending order row has no primary key yet, so
`order.id` reads as None and the quote's `order_id` column is committed as
NULL — modelled here as `none`, not as the id the fresh row receives at
flush time.  If `quote.total_price` is NULL the statistics update raises
and the request is rolled back by the 500 handler, leaving the store
unchanged. -/
def accept_quote (s : AppState) (qid : Nat) (now : Time) :
    AcceptResult × AppState :=
  match findQuote s qid with
  | none => (AcceptResult.notFound, s)
  | some quote =>
    if quote.user_id ≠ s.user.id then
      (AcceptResult.forbidden, s)
    else if quote.status ≠ statusQuoted then
      (AcceptResult.notAcceptable, s)
    else if isExpired quote.valid_until now then
      (AcceptResult.expired,
        updateQuote s qid (fun q => { q with status := statusExpired }))
    else
      match quote.total_price with
      | none => (AcceptResult.serverError, s)
      | some tp =>
        let order := orderFromQuote s quote
        let newCount := s.user.total_orders + 1
        let s1 := updateQuote s qid (fun q =>
          { q with
            status := statusConverted
            -- line 821 reads order.id before the flush assigns it: None
            order_id := none
            responded_at := some now })
        (AcceptResult.converted order.id,
          { s1 with
            orders := s1.orders ++ [order]
            nextOrderId := s1.nextOrderId + 1
            user :=
              { s.user with
                total_orders := newCount
                total_spent := s.user.total_spent + tp
                customer_tier := update_tier newCount } })

/-- Result of the `reject_quote` handler (src/app.py lines 834-853). -/
inductive RejectResult where
  | notFound : RejectResult
  | forbidden : RejectResult
  | notRejectable : RejectResult
  | rejected : RejectResult
deriving DecidableEq

/-- Model of `reject_quote` (src/app.py lines 834-853): ownership and
the Quoted-status checks, then set status, stamp `responded_at`, and
store the submitted reason into `customer_notes`. -/
def reject_quote (s : AppState) (qid : Nat) (reason : String) (now : Time) :
    RejectResult × AppState :=
  match findQuote s qid with
  | none => (RejectResult.notFound, s)
  | some quote =>
    if quote.user_id ≠ s.user.id then
      (RejectResult.forbidden, s)
    else if quote.status ≠ statusQuoted then
      (RejectResult.notRejectable, s)
    else
      (RejectResult.rejected,
        updateQuote s qid (fun q =>
          { q with
            status := statusRejected
            responded_at := some now
            customer_notes := some reason }))

/-- Result of the legacy contact-form handler (src/app.py lines 859-896). -/
inductive ContactFormResult where
  | missingFields : ContactFormResult
  | received (orderId : Nat) : ContactFormResult
deriving DecidableEq

/-- The `Order` row constructed by the contact-form handler
(src/app.py lines 872-882): no financial field is supplied, so the four
money columns take their model defaults of zero, and the status column
takes its default `New`. -/
def newContactOrder (s : AppState)
    (name email phone service_type details : String)
    (authenticated : Bool) : Order :=
  { id := s.nextOrderId
    user_id := if authenticated then some s.user.id else none
    quote_request_id := none
    guest_name := if authenticated then none else some name
    guest_email := if authenticated then none else some email
    guest_phone := some phone
    service_type := service_type
    details := details
    items_json := none
    subtotal := some 0
    discount := some 0
    delivery_fee := some 0
    total := some 0
    status := statusNew
    design_files := none }

/-- Model of `submit_order` (src/app.py lines 859-896): the legacy guest
contact-form path.  Bails out when name, email or message is empty
(Python truthiness); otherwise inserts the minimal order row.  No
customer statistic is touched. -/
def submit_order (s : AppState)
    (name email phone service_type details : String)
    (authenticated : Bool) : ContactFormResult × AppState :=
  if name = emptyStr ∨ email = emptyStr ∨ details = emptyStr then
    (ContactFormResult.missingFields, s)
  else
    (ContactFormResult.received s.nextOrderId,
      { s with
        orders := s.orders ++
          [newContactOrder s name email phone service_type details
            authenticated]
        nextOrderId := s.nextOrderId + 1 })

/-!  Helper lemmas about the store primitives.  -/

theorem find?_update_list (l : List QuoteRequest) (qid : Nat)
    (f : QuoteRequest → QuoteRequest) (hf : ∀ q, (f q).id = q.id) :
    (l.map (fun q => if q.id == qid then f q else q)).find?
        (fun q => q.id == qid)
      = (l.find? (fun q => q.id == qid)).map f := by
  induction l with
  | nil => rfl
  | cons a l ih =>
    simp only [List.map_cons]
    by_cases h : (a.id == qid) = true
    · have hfa : ((f a).id == qid) = true := by rw [hf a]; exact h
      rw [if_pos h]
      simp [List.find?, hfa, h]
    · rw [if_neg h]
      have e1 : List.find? (fun q => q.id == qid)
          (a :: List.map (fun q => if (q.id == qid) = true then f q else q) l)
          = List.find? (fun q => q.id == qid)
            (List.map (fun q => if (q.id == qid) = true then f q else q) l) :=
        List.find?_cons_of_neg _ h
      have e2 : List.find? (fun q => q.id == qid) (a :: l)
          = List.find? (fun q => q.id == qid) l :=
        List.find?_cons_of_neg _ h
      rw [e1, e2, ih]

theorem findQuote_updateQuote (s : AppState) (qid : Nat)
    (f : QuoteRequest → QuoteRequest) (hf : ∀ q, (f q).id = q.id) :
    findQuote (updateQuote s qid f) qid = (findQuote s qid).map f :=
  find?_update_list s.quotes qid f hf

theorem orderFromQuote_id (s : AppState) (q : QuoteRequest) :
    (orderFromQuote s q).id = s.nextOrderId := rfl

theorem updateQuote_orders (s : AppState) (qid : Nat)
    (f : QuoteRequest → QuoteRequest) :
    (updateQuote s qid f).orders = s.orders := rfl

theorem updateQuote_user (s : AppState) (qid : Nat)
    (f : QuoteRequest → QuoteRequest) :
    (updateQuote s qid f).user = s.user := rfl

/-!  Concrete sample data, used to witness the theorems below on closed
inputs.  The numbers follow the worked example of the quote workflow:
an "A5 Flyers" line of 100 pieces at base price 100000, quoted at 95000
with 5000 discount and 10000 delivery. -/

def nameFlyers : String := "A5 Flyers"

def sizeA5 : String := "A5"

def nameAda : String := "Ada"

def emailAda : String := "ada@example.com"

def phoneAda : String := "0700000000"

def svcGeneral : String := "general"

def msgHello : String := "Need a banner"

def reasonTooDear : String := "Too expensive"

def productFlyers : Product :=
  { id := 3, name := nameFlyers, base_price := 100000, min_quantity := 100 }

def cartLineFlyers : CartItem :=
  { product := productFlyers
    quantity := 100
    size := sizeA5
    material := emptyStr
    color := emptyStr
    finishing := emptyStr
    custom_size := emptyStr
    design_file := none
    design_notes := emptyStr }

def itemFlyers : SnapshotItem := serializeItem cartLineFlyers

def userFresh : User :=
  { id := 1, customer_tier := tierNew, total_orders := 0, total_spent := 0 }

/-- A quote of user 1 that the admin has priced: 95000 - 5000 + 10000,
valid until instant 700. -/
def quoteQuoted : QuoteRequest :=
  { id := 1
    user_id := 1
    items_json := [itemFlyers]
    status := statusQuoted
    quoted_price := some 95000
    discount_applied := some 5000
    delivery_fee := some 10000
    total_price := some 100000
    admin_notes := some emptyStr
    valid_until := some 700
    customer_notes := some emptyStr
    quoted_at := some 0
    responded_at := none
    order_id := none }

def stQuoted : AppState :=
  { user := userFresh
    cart := []
    quotes := [quoteQuoted]
    orders := []
    nextOrderId := 1
    nextQuoteId := 2 }

def quoteConverted : QuoteRequest :=
  { quoteQuoted with
    status := statusConverted
    order_id := some 1
    responded_at := some 100 }

def stConverted : AppState :=
  { stQuoted with quotes := [quoteConverted] }

def stCart : AppState :=
  { user := userFresh
    cart := [cartLineFlyers]
    quotes := []
    orders := []
    nextOrderId := 1
    nextQuoteId := 1 }

def stNoCart : AppState := { stCart with cart := [] }

/-- The natural order on the five tier names, used to state monotonicity:
New < Bronze < Silver < Gold < VIP. -/
def tierRank (customer_tier : String) : Nat :=
  if customer_tier = tierNew then 0
  else if customer_tier = tierBronze then 1
  else if customer_tier = tierSilver then 2
  else if customer_tier = tierGold then 3
  else if customer_tier = tierVIP then 4
  else 0

/-- C7: for every order count ≥ 0 the tier computation returns exactly one
of the five tiers; the thresholds 5, 15, 30, 50 map inclusively (≥) to
Bronze, Silver, Gold, VIP with New below 5; the five tiers carry discount
percentages 0/5/10/15/20; and both the tier (in the New < Bronze < Silver
< Gold < VIP order) and the discount are monotonic non-decreasing in the
order count.  `update_tier` is a pure Lean function of `total_orders`,
mirroring `User.update_tier` recomputed from the stored count. -/
theorem update_tier_thresholds_and_monotonic (n m : Int)
    (hn : 0 ≤ n) (hnm : n ≤ m) :
    (update_tier n = tierNew ∨ update_tier n = tierBronze ∨
     update_tier n = tierSilver ∨ update_tier n = tierGold ∨
     update_tier n = tierVIP)
    ∧ (n < 5 → update_tier n = tierNew)
    ∧ (5 ≤ n → n < 15 → update_tier n = tierBronze)
    ∧ (15 ≤ n → n < 30 → update_tier n = tierSilver)
    ∧ (30 ≤ n → n < 50 → update_tier n = tierGold)
    ∧ (50 ≤ n → update_tier n = tierVIP)
    ∧ (discount_percent tierNew = 0 ∧ discount_percent tierBronze = 5 ∧
       discount_percent tierSilver = 10 ∧ discount_percent tierGold = 15 ∧
       discount_percent tierVIP = 20)
    ∧ tierRank (update_tier n) ≤ tierRank (update_tier m)
    ∧ discount_percent (update_tier n) ≤ discount_percent (update_tier m) := by
  refine ⟨?_, ?_, ?_, ?_, ?_, ?_, ?_, ?_, ?_⟩
  · simp only [update_tier]
    split_ifs <;> simp
  · intro h
    simp only [update_tier]
    split_ifs <;> first | rfl | omega
  · intro h1 h2
    simp only [update_tier]
    split_ifs <;> first | rfl | omega
  · intro h1 h2
    simp only [update_tier]
    split_ifs <;> first | rfl | omega
  · intro h1 h2
    simp only [update_tier]
    split_ifs <;> first | rfl | omega
  · intro h
    simp only [update_tier]
    split_ifs <;> first | rfl | omega
  · refine ⟨rfl, ?_, ?_, ?_, ?_⟩ <;> decide
  · simp only [update_tier]
    split_ifs <;> first | decide | omega
  · simp only [update_tier]
    split_ifs <;> first | decide | omega

/-- Witness for C7 at the boundary counts 5 and 50. -/
theorem update_tier_thresholds_and_monotonic_witness :
    update_tier 5 = tierBronze ∧ update_tier 50 = tierVIP ∧
    tierRank (update_tier 5) ≤ tierRank (update_tier 50) ∧
    discount_percent (update_tier 5) ≤ discount_percent (update_tier 50) := by
  obtain ⟨a1, a2, a3, a4, a5, a6, d, m1, m2⟩ :=
    update_tier_thresholds_and_monotonic 5 50 (by decide) (by decide)
  obtain ⟨b1, b2, b3, b4, b5, b6, e, k1, k2⟩ :=
    update_tier_thresholds_and_monotonic 50 50 (by decide) (by decide)
  exact ⟨a3 (by decide) (by decide), b6 (by decide), m1, m2⟩

/-- C4: submitting a non-empty cart of N line items creates, in the single
transaction of the handler, exactly one new `QuoteRequest` whose status is
`Pending` and whose snapshot is the serialization of the cart lines — N
entries, in the cart's insertion order — and leaves the customer's cart
empty.  The successor state carries both effects at once: either the whole
update happens or (on the empty-cart bailout) none of it does. -/
theorem request_quote_snapshots_and_clears_cart
    (s : AppState) (notes : String) (hne : s.cart ≠ []) :
    request_quote s notes =
      (RequestQuoteResult.submitted s.nextQuoteId,
        { s with
          quotes := s.quotes ++ [newQuoteFromCart s notes]
          cart := []
          nextQuoteId := s.nextQuoteId + 1 })
    ∧ (newQuoteFromCart s notes).status = statusPending
    ∧ (newQuoteFromCart s notes).items_json = s.cart.map serializeItem
    ∧ (newQuoteFromCart s notes).items_json.length = s.cart.length
    ∧ (request_quote s notes).2.cart = [] := by
  have hie : s.cart.isEmpty = false := by
    cases hcc : s.cart with
    | nil => exact absurd hcc hne
    | cons a l => rfl
  refine ⟨?_, rfl, rfl, ?_, ?_⟩
  · simp [request_quote, hie]
  · simp [newQuoteFromCart]
  · simp [request_quote, hie]

/-- Witness for C4: a one-line cart submits to a one-entry Pending
snapshot and an empty cart. -/
theorem request_quote_snapshots_and_clears_cart_witness :
    request_quote stCart emptyStr =
      (RequestQuoteResult.submitted 1,
        { stCart with
          quotes := [newQuoteFromCart stCart emptyStr]
          cart := []
          nextQuoteId := 2 })
    ∧ (newQuoteFromCart stCart emptyStr).items_json = [itemFlyers]
    ∧ (newQuoteFromCart stCart emptyStr).status = statusPending
    ∧ (request_quote stCart emptyStr).2.cart = [] := by
  obtain ⟨h1, h2, h3, h4, h5⟩ :=
    request_quote_snapshots_and_clears_cart stCart emptyStr (by decide)
  exact ⟨h1, h3, h2, h5⟩

/-- C5: submitting with an empty cart is rejected (the handler flashes
"Your cart is empty." and redirects — the `EmptyCartError` of the design)
and the state is returned unchanged: in particular no `QuoteRequest` row
is created. -/
theorem request_quote_empty_cart_rejected
    (s : AppState) (notes : String) (he : s.cart = []) :
    request_quote s notes = (RequestQuoteResult.emptyCart, s)
    ∧ (request_quote s notes).2.quotes = s.quotes := by
  constructor
  · simp [request_quote, he]
  · simp [request_quote, he]

/-- Witness for C5. -/
theorem request_quote_empty_cart_rejected_witness :
    request_quote stNoCart emptyStr = (RequestQuoteResult.emptyCart, stNoCart)
    ∧ (request_quote stNoCart emptyStr).2.quotes = stNoCart.quotes :=
  request_quote_empty_cart_rejected stNoCart emptyStr (by decide)

/-- C1 (code bug, shown at the failing input): the sample customer accepts
the priced sample quote (status Quoted, total 100000, valid until 700) at
instant 100.  Exactly one order is materialized, with id 1, its
`subtotal`, `discount`, `delivery_fee`, `total` and `items_json` copied
verbatim from the quote and status `Confirmed`; the quote becomes
`Converted` with `responded_at` stamped; the customer's `total_orders`
becomes 1, `total_spent` grows by the quote's total 100000, and the tier
is recomputed from the new count.  But the converted quote's `order_id` is
committed as `none`, not as the new order's id 1: the source assigns
`quote.order_id = order.id` (src/app.py line 821) right after
`db.session.add(order)` with no flush in between, so the pending row's
primary key still reads as None and the link the claim requires is stored
as NULL. -/
theorem accept_commits_null_order_id_bug :
    (accept_quote stQuoted 1 100).1 = AcceptResult.converted 1
    ∧ (accept_quote stQuoted 1 100).2.orders =
        [orderFromQuote stQuoted quoteQuoted]
    ∧ (orderFromQuote stQuoted quoteQuoted).id = 1
    ∧ (orderFromQuote stQuoted quoteQuoted).subtotal =
        quoteQuoted.quoted_price
    ∧ (orderFromQuote stQuoted quoteQuoted).discount =
        quoteQuoted.discount_applied
    ∧ (orderFromQuote stQuoted quoteQuoted).delivery_fee =
        quoteQuoted.delivery_fee
    ∧ (orderFromQuote stQuoted quoteQuoted).total = some 100000
    ∧ (orderFromQuote stQuoted quoteQuoted).items_json =
        some quoteQuoted.items_json
    ∧ (orderFromQuote stQuoted quoteQuoted).status = statusConfirmed
    ∧ (orderFromQuote stQuoted quoteQuoted).quote_request_id = some 1
    ∧ (accept_quote stQuoted 1 100).2.user.total_orders = 1
    ∧ (accept_quote stQuoted 1 100).2.user.total_spent = 100000
    ∧ (accept_quote stQuoted 1 100).2.user.customer_tier = update_tier 1
    ∧ findQuote (accept_quote stQuoted 1 100).2 1 =
        some { quoteQuoted with
               status := statusConverted
               order_id := none
               responded_at := some 100 }
    ∧ (findQuote (accept_quote stQuoted 1 100).2 1).map
        (fun q => q.order_id) = some none := by
  decide

/-!  Shared reduction lemmas for the failing branches of `accept_quote`. -/

theorem accept_quote_notQuoted_eq (s : AppState) (qid : Nat) (now : Time)
    (q : QuoteRequest) (hfind : findQuote s qid = some q)
    (hown : q.user_id = s.user.id) (hne : q.status ≠ statusQuoted) :
    accept_quote s qid now = (AcceptResult.notAcceptable, s) := by
  simp [accept_quote, hfind, hown, hne]

theorem accept_quote_expired_eq (s : AppState) (qid : Nat) (now t : Time)
    (q : QuoteRequest) (hfind : findQuote s qid = some q)
    (hown : q.user_id = s.user.id) (hst : q.status = statusQuoted)
    (hvalid : q.valid_until = some t) (hpast : t < now) :
    accept_quote s qid now =
      (AcceptResult.expired,
        updateQuote s qid (fun qq => { qq with status := statusExpired })) := by
  simp [accept_quote, hfind, hown, hst, hvalid, isExpired, hpast, updateQuote]

/-- C3: an accept attempt on a `Quoted` quote strictly after its
`valid_until` bails out at the expiry check — which the handler evaluates
before any order materialization (expiry is lazy; nothing else in the
source ever sets `Expired`) — marks the quote `Expired`, creates no order,
and reports the expiry error (the flashed `QuoteExpiredError` of the
design). -/
theorem accept_expired_quote_expires_without_order
    (s : AppState) (qid : Nat) (now t : Time) (q : QuoteRequest)
    (hfind : findQuote s qid = some q)
    (hown : q.user_id = s.user.id)
    (hst : q.status = statusQuoted)
    (hvalid : q.valid_until = some t)
    (hpast : t < now) :
    accept_quote s qid now =
      (AcceptResult.expired,
        updateQuote s qid (fun qq => { qq with status := statusExpired }))
    ∧ (accept_quote s qid now).2.orders = s.orders
    ∧ (accept_quote s qid now).2.user = s.user
    ∧ findQuote (accept_quote s qid now).2 qid =
        some { q with status := statusExpired } := by
  have hred := accept_quote_expired_eq s qid now t q hfind hown hst hvalid hpast
  refine ⟨hred, ?_, ?_, ?_⟩
  · rw [hred]
    rfl
  · rw [hred]
    rfl
  · rw [hred]
    have hq := findQuote_updateQuote s qid
      (fun qq => { qq with status := statusExpired }) (fun _ => rfl)
    rw [hfind] at hq
    exact hq

/-- Witness for C3: accepting the sample quote at instant 800, past its
expiry instant 700, expires it and leaves the order table empty. -/
theorem accept_expired_quote_expires_without_order_witness :
    accept_quote stQuoted 1 800 =
      (AcceptResult.expired,
        updateQuote stQuoted 1 (fun qq => { qq with status := statusExpired }))
    ∧ (accept_quote stQuoted 1 800).2.orders = stQuoted.orders
    ∧ findQuote (accept_quote stQuoted 1 800).2 1 =
        some { quoteQuoted with status := statusExpired } := by
  obtain ⟨h1, h2, h3, h4⟩ :=
    accept_expired_quote_expires_without_order stQuoted 1 800 700 quoteQuoted
      rfl rfl rfl rfl (by decide)
  exact ⟨h1, h2, h4⟩

/-- C6: once a quote sits in any state other than `Quoted` — in particular
in the terminal `Converted` state it enters when an order was materialized
from it — every further accept attempt by any acting user fails (403 for a
non-owner, the cannot-accept rejection otherwise) and returns the store
unchanged, so no second order is ever created from the same quote. -/
theorem terminal_quote_accept_fails_no_order
    (s : AppState) (qid : Nat) (now : Time) (q : QuoteRequest)
    (hfind : findQuote s qid = some q)
    (hterm : q.status ≠ statusQuoted) :
    (accept_quote s qid now).2 = s
    ∧ ((accept_quote s qid now).1 = AcceptResult.forbidden ∨
       (accept_quote s qid now).1 = AcceptResult.notAcceptable) := by
  by_cases hown : q.user_id = s.user.id
  · have hred := accept_quote_notQuoted_eq s qid now q hfind hown hterm
    exact ⟨by rw [hred], Or.inr (by rw [hred])⟩
  · have hred : accept_quote s qid now = (AcceptResult.forbidden, s) := by
      simp [accept_quote, hfind, hown]
    exact ⟨by rw [hred], Or.inl (by rw [hred])⟩

/-- Witness for C6: re-accepting the already-converted sample quote fails
and changes nothing. -/
theorem terminal_quote_accept_fails_no_order_witness :
    (accept_quote stConverted 1 800).2 = stConverted
    ∧ ((accept_quote stConverted 1 800).1 = AcceptResult.forbidden ∨
       (accept_quote stConverted 1 800).1 = AcceptResult.notAcceptable) :=
  terminal_quote_accept_fails_no_order stConverted 1 800 quoteConverted
    rfl (by decide)

/-- C10: an accept attempt by the owner that fails — either because the
quote is not `Quoted`, or because its `valid_until` has elapsed — creates
no order row and leaves the acting customer's row (total_orders,
total_spent, tier) untouched; in the expired case the stored quote differs
from the old one in the status field alone, so `order_id` and
`responded_at` keep their previous (unset) values. -/
theorem failed_accept_keeps_orders_and_stats
    (s : AppState) (qid : Nat) (now t : Time) (q : QuoteRequest)
    (hfind : findQuote s qid = some q)
    (hown : q.user_id = s.user.id)
    (hfail : q.status ≠ statusQuoted ∨
      (q.status = statusQuoted ∧ q.valid_until = some t ∧ t < now)) :
    (accept_quote s qid now).2.orders = s.orders
    ∧ (accept_quote s qid now).2.user = s.user
    ∧ ((accept_quote s qid now).1 = AcceptResult.notAcceptable ∨
       (accept_quote s qid now).1 = AcceptResult.expired)
    ∧ (findQuote (accept_quote s qid now).2 qid = some q ∨
       findQuote (accept_quote s qid now).2 qid =
         some { q with status := statusExpired }) := by
  rcases hfail with hne | ⟨hst, hvalid, hpast⟩
  · have hred := accept_quote_notQuoted_eq s qid now q hfind hown hne
    refine ⟨by rw [hred], by rw [hred], Or.inl (by rw [hred]), Or.inl ?_⟩
    rw [hred]
    exact hfind
  · have hred := accept_quote_expired_eq s qid now t q hfind hown hst hvalid
      hpast
    refine ⟨by rw [hred]; rfl, by rw [hred]; rfl, Or.inr (by rw [hred]),
      Or.inr ?_⟩
    rw [hred]
    have hq := findQuote_updateQuote s qid
      (fun qq => { qq with status := statusExpired }) (fun _ => rfl)
    rw [hfind] at hq
    exact hq

/-- Witness for C10, in the expired case: the failed accept at instant 800
leaves the order table and the customer row unchanged and changes only the
quote's status. -/
theorem failed_accept_keeps_orders_and_stats_witness :
    (accept_quote stQuoted 1 800).2.orders = stQuoted.orders
    ∧ (accept_quote stQuoted 1 800).2.user = stQuoted.user
    ∧ ((accept_quote stQuoted 1 800).1 = AcceptResult.notAcceptable ∨
       (accept_quote stQuoted 1 800).1 = AcceptResult.expired)
    ∧ (findQuote (accept_quote stQuoted 1 800).2 1 = some quoteQuoted ∨
       findQuote (accept_quote stQuoted 1 800).2 1 =
         some { quoteQuoted with status := statusExpired }) :=
  failed_accept_keeps_orders_and_stats stQuoted 1 800 700 quoteQuoted
    rfl rfl (Or.inr ⟨rfl, rfl, by decide⟩)

/-- C9: rejecting a `Quoted` quote as its owner sets the status to
`Rejected`, stamps `responded_at`, and stores the submitted reason by
overwriting `customer_notes` — the customer's original submission notes on
the quote are replaced whatever they were — while the snapshot
(`items_json`) and every pricing field (`quoted_price`,
`discount_applied`, `delivery_fee`, `total_price`, `valid_until`) are
carried over unchanged. -/
theorem reject_quote_overwrites_customer_notes
    (s : AppState) (qid : Nat) (reason : String) (now : Time)
    (q : QuoteRequest)
    (hfind : findQuote s qid = some q)
    (hown : q.user_id = s.user.id)
    (hst : q.status = statusQuoted) :
    reject_quote s qid reason now =
      (RejectResult.rejected,
        updateQuote s qid (fun qq =>
          { qq with
            status := statusRejected
            responded_at := some now
            customer_notes := some reason }))
    ∧ findQuote (reject_quote s qid reason now).2 qid =
        some { q with
               status := statusRejected
               responded_at := some now
               customer_notes := some reason }
    ∧ ({ q with
         status := statusRejected
         responded_at := some now
         customer_notes := some reason } : QuoteRequest).items_json =
        q.items_json
    ∧ ({ q with
         status := statusRejected
         responded_at := some now
         customer_notes := some reason } : QuoteRequest).quoted_price =
        q.quoted_price
    ∧ ({ q with
         status := statusRejected
         responded_at := some now
         customer_notes := some reason } : QuoteRequest).discount_applied =
        q.discount_applied
    ∧ ({ q with
         status := statusRejected
         responded_at := some now
         customer_notes := some reason } : QuoteRequest).delivery_fee =
        q.delivery_fee
    ∧ ({ q with
         status := statusRejected
         responded_at := some now
         customer_notes := some reason } : QuoteRequest).total_price =
        q.total_price
    ∧ ({ q with
         status := statusRejected
         responded_at := some now
         customer_notes := some reason } : QuoteRequest).valid_until =
        q.valid_until := by
  have hred : reject_quote s qid reason now =
      (RejectResult.rejected,
        updateQuote s qid (fun qq =>
          { qq with
            status := statusRejected
            responded_at := some now
            customer_notes := some reason })) := by
    simp [reject_quote, hfind, hown, hst, updateQuote]
  refine ⟨hred, ?_, rfl, rfl, rfl, rfl, rfl, rfl⟩
  rw [hred]
  have hq := findQuote_updateQuote s qid (fun qq =>
    { qq with
      status := statusRejected
      responded_at := some now
      customer_notes := some reason }) (fun _ => rfl)
  rw [hfind] at hq
  exact hq

/-- Witness for C9: rejecting the sample quote at instant 200 replaces its
(previously empty) customer notes with the rejection reason and keeps its
pricing. -/
theorem reject_quote_overwrites_customer_notes_witness :
    reject_quote stQuoted 1 reasonTooDear 200 =
      (RejectResult.rejected,
        updateQuote stQuoted 1 (fun qq =>
          { qq with
            status := statusRejected
            responded_at := some 200
            customer_notes := some reasonTooDear }))
    ∧ findQuote (reject_quote stQuoted 1 reasonTooDear 200).2 1 =
        some { quoteQuoted with
               status := statusRejected
               responded_at := some 200
               customer_notes := some reasonTooDear } := by
  obtain ⟨h1, h2, h3⟩ :=
    reject_quote_overwrites_customer_notes stQuoted 1 reasonTooDear 200
      quoteQuoted rfl rfl rfl
  exact ⟨h1, h2⟩

/-- C2 counterexample: the claim states that a price call on a quote not
in `Pending` fails with an invalid-state-transition error and leaves the
quote unchanged.  On the code it succeeds: pricing the sample quote, which
is already `Quoted` (hence non-Pending), changes the store and overwrites
the stored total with the newly computed one — the handler contains no
status check and no such error exists. -/
theorem price_non_pending_succeeds_cex :
    (findQuote stQuoted 1).map (fun q => q.status) = some statusQuoted
    ∧ send_quote stQuoted 1 200000 0 0 emptyStr 7 0 ≠ stQuoted
    ∧ (findQuote (send_quote stQuoted 1 200000 0 0 emptyStr 7 0) 1).map
        (fun q => q.total_price) = some (some 200000) := by
  refine ⟨rfl, ?_, ?_⟩ <;> decide

/-- C2 (amended): the pricing action on any existing quote — whatever its
status, Pending or not — sets `total_price` to exactly
`quoted_price - discount_applied + delivery_fee` and transitions the quote
to `Quoted`; the code performs no status check, so a second price call on
the same quote simply re-prices it instead of failing. -/
theorem send_quote_reprices_any_status
    (s : AppState) (qid : Nat) (qp d fee : Money) (notes : String)
    (vd : Int) (now : Time) (q : QuoteRequest)
    (hfind : findQuote s qid = some q) :
    send_quote s qid qp d fee notes vd now =
      updateQuote s qid (priceQuote qp d fee notes vd now)
    ∧ findQuote (send_quote s qid qp d fee notes vd now) qid =
        some (priceQuote qp d fee notes vd now q)
    ∧ (priceQuote qp d fee notes vd now q).total_price =
        some (qp - d + fee)
    ∧ (priceQuote qp d fee notes vd now q).status = statusQuoted := by
  have hred : send_quote s qid qp d fee notes vd now =
      updateQuote s qid (priceQuote qp d fee notes vd now) := by
    simp [send_quote, hfind]
  refine ⟨hred, ?_, rfl, rfl⟩
  rw [hred]
  have hq := findQuote_updateQuote s qid (priceQuote qp d fee notes vd now)
    (fun _ => rfl)
  rw [hfind] at hq
  exact hq

/-- Witness for the amended C2: re-pricing the already-Quoted sample quote
succeeds and stores the new exact total. -/
theorem send_quote_reprices_any_status_witness :
    send_quote stQuoted 1 200000 0 0 emptyStr 7 0 =
      updateQuote stQuoted 1 (priceQuote 200000 0 0 emptyStr 7 0)
    ∧ findQuote (send_quote stQuoted 1 200000 0 0 emptyStr 7 0) 1 =
        some (priceQuote 200000 0 0 emptyStr 7 0 quoteQuoted)
    ∧ (priceQuote 200000 0 0 emptyStr 7 0 quoteQuoted).total_price =
        some 200000 := by
  obtain ⟨h1, h2, h3, h4⟩ :=
    send_quote_reprices_any_status stQuoted 1 200000 0 0 emptyStr 7 0
      quoteQuoted rfl
  exact ⟨h1, h2, h3⟩

/-!  The shape of the order table across every operation, for C8. -/

theorem accept_quote_orders_shape (s : AppState) (qid : Nat) (now : Time) :
    (accept_quote s qid now).2.orders.take s.orders.length = s.orders
    ∧ ((accept_quote s qid now).2.orders.drop s.orders.length).all
        (fun o => o.status == statusConfirmed) = true := by
  unfold accept_quote
  cases hfq : findQuote s qid with
  | none => simp
  | some q =>
    simp only [hfq]
    split_ifs with h1 h2 h3
    · simp
    · simp
    · constructor
      · simp [updateQuote]
      · simp [updateQuote]
    · cases htp : q.total_price with
      | none => simp
      | some tp =>
        constructor
        · simp [updateQuote, List.take_left]
        · simp [updateQuote, List.drop_left, orderFromQuote]

/-- C8: an order created through the legacy guest contact-form path (with
the three required fields present) is appended with every financial column
(`subtotal`, `discount`, `delivery_fee`, `total`) at its zero default,
status `New`, no quote link, and the acting customer's row — order count,
amount spent, tier — untouched.  Among the modelled workflow operations
the `Confirmed` status enters the order table only through quote
conversion: the cart, pricing and reject handlers never append an order,
every order the contact form appends carries `New`, and every order the
accept handler appends carries `Confirmed`. -/
theorem contact_form_orders_minimal_and_new
    (s : AppState) (name email phone svc details notes reason an : String)
    (auth : Bool) (qid : Nat) (qp d fee : Money) (vd : Int) (now : Time)
    (hname : name ≠ emptyStr) (hemail : email ≠ emptyStr)
    (hdet : details ≠ emptyStr) :
    submit_order s name email phone svc details auth =
      (ContactFormResult.received s.nextOrderId,
        { s with
          orders := s.orders ++
            [newContactOrder s name email phone svc details auth]
          nextOrderId := s.nextOrderId + 1 })
    ∧ (newContactOrder s name email phone svc details auth).subtotal = some 0
    ∧ (newContactOrder s name email phone svc details auth).discount = some 0
    ∧ (newContactOrder s name email phone svc details auth).delivery_fee =
        some 0
    ∧ (newContactOrder s name email phone svc details auth).total = some 0
    ∧ (newContactOrder s name email phone svc details auth).status = statusNew
    ∧ (newContactOrder s name email phone svc details auth).quote_request_id =
        none
    ∧ (submit_order s name email phone svc details auth).2.user = s.user
    ∧ ((submit_order s name email phone svc details auth).2.orders.drop
          s.orders.length).all (fun o => o.status == statusNew) = true
    ∧ (request_quote s notes).2.orders = s.orders
    ∧ (send_quote s qid qp d fee an vd now).orders = s.orders
    ∧ (reject_quote s qid reason now).2.orders = s.orders
    ∧ (accept_quote s qid now).2.orders.take s.orders.length = s.orders
    ∧ ((accept_quote s qid now).2.orders.drop s.orders.length).all
        (fun o => o.status == statusConfirmed) = true := by
  have hred : submit_order s name email phone svc details auth =
      (ContactFormResult.received s.nextOrderId,
        { s with
          orders := s.orders ++
            [newContactOrder s name email phone svc details auth]
          nextOrderId := s.nextOrderId + 1 }) := by
    simp [submit_order, hname, hemail, hdet]
  refine ⟨hred, rfl, rfl, rfl, rfl, rfl, rfl, ?_, ?_, ?_, ?_, ?_,
    (accept_quote_orders_shape s qid now).1,
    (accept_quote_orders_shape s qid now).2⟩
  · rw [hred]
  · rw [hred]
    simp [List.drop_left, newContactOrder]
  · simp only [request_quote]
    split <;> rfl
  · cases hfq : findQuote s qid with
    | none => simp [send_quote, hfq]
    | some q => simp [send_quote, hfq, updateQuote]
  · cases hfq : findQuote s qid with
    | none => simp [reject_quote, hfq]
    | some q =>
      simp only [reject_quote, hfq]
      split_ifs <;> simp [updateQuote]

/-- Witness for C8: a concrete guest submission appends one zero-priced
`New` order and leaves the sample customer row unchanged. -/
theorem contact_form_orders_minimal_and_new_witness :
    submit_order stNoCart nameAda emailAda phoneAda svcGeneral msgHello false =
      (ContactFormResult.received 1,
        { stNoCart with
          orders := [newContactOrder stNoCart nameAda emailAda phoneAda
            svcGeneral msgHello false]
          nextOrderId := 2 })
    ∧ (newContactOrder stNoCart nameAda emailAda phoneAda svcGeneral msgHello
        false).total = some 0
    ∧ (newContactOrder stNoCart nameAda emailAda phoneAda svcGeneral msgHello
        false).status = statusNew
    ∧ (submit_order stNoCart nameAda emailAda phoneAda svcGeneral msgHello
        false).2.user = stNoCart.user := by
  obtain ⟨h1, h2, h3, h4, h5, h6, h7, h8, h9, h10, h11, h12, h13, h14⟩ :=
    contact_form_orders_minimal_and_new stNoCart nameAda emailAda phoneAda
      svcGeneral msgHello emptyStr emptyStr emptyStr false 1 0 0 0 0 0
      (by decide) (by decide) (by decide)
  exact ⟨h1, h5, h6, h8⟩

end Motion
